import Mathlib

/-!
Verification of the agentlog-api proxy/span-ledger core (a Node/Express
service backed by SQLite).  The JavaScript source is shallowly embedded:
pure functions become Lean functions, the SQLite tables become lists of
records, handlers become explicit state-passing functions, JS numbers used
for money become `ℚ`, and token counts become `Nat`.  JS string truthiness
(`""` is falsy) and SQL `NULL` comparison semantics (`col = NULL` never
holds) are modelled explicitly where the source relies on them.
-/

namespace AgentLog

/-- Substring test mirroring JS `String.prototype.includes`: `jsIncludes s t`
holds when `t` occurs contiguously inside `s`. -/
def jsIncludes (s t : String) : Bool :=
  s.data.tails.any (fun suf => t.data.isPrefixOf suf)

/-- JS `String.prototype.startsWith`, computed on the character lists. -/
def jsStartsWith (s p : String) : Bool :=
  p.data.isPrefixOf s.data

/-- JS `String.prototype.toLowerCase` (ASCII case folding suffices for the
model names the source handles). -/
def jsToLower (s : String) : String :=
  String.mk (s.data.map Char.toLower)

/-- JS `s.slice(n)` / dropping a tag of `n` characters from the front. -/
def jsDrop (s : String) (n : Nat) : String :=
  String.mk (s.data.drop n)

/-- JS `String.prototype.trim`: strip whitespace from both ends. -/
def jsTrim (s : String) : String :=
  String.mk (((s.data.dropWhile Char.isWhitespace).reverse.dropWhile Char.isWhitespace).reverse)

/-- Helper of `jsSplitNewline`: accumulate the current line (reversed). -/
def splitNlAux : List Char → List Char → List String
  | [], acc => [String.mk acc.reverse]
  | c :: rest, acc =>
    if c = '\n' then String.mk acc.reverse :: splitNlAux rest []
    else splitNlAux rest (c :: acc)

/-- JS `s.split('\n')`. -/
def jsSplitNewline (s : String) : List String :=
  splitNlAux s.data []

/-- JS `lines.join('\n')`. -/
def joinNl : List String → String
  | [] => ""
  | [s] => s
  | s :: rest => s ++ "\n" ++ joinNl rest

/-- JS truthiness for an optional string column/field: `null`/absent and the
empty string are falsy, every other string is truthy. -/
def jsTruthy : Option String → Bool
  | none => false
  | some s => s ≠ ""

/-- JS `x || null` for optional strings: a falsy value collapses to `null`. -/
def jsOrNull (x : Option String) : Option String :=
  if jsTruthy x then x else none

/-- The providers the gateway can route to. -/
inductive Provider where
  | openai
  | anthropic
  | google
  | xai
  | openrouter
deriving DecidableEq

/-- Embeds `detectProviderFromModel` from the source: lowercase the model
name, then test the prefix families in source order (`gpt-`/`o1`/contains
`openai` first, then `claude-`, `gemini-`, `grok-`, then the `/` routing to
openrouter), defaulting to openai.  The JS `if (!model)` guard is the
`model = ""` case, which falls through every test to the default. -/
def detectProviderFromModel (model : String) : Provider :=
  if model = "" then .openai
  else
    let m := jsToLower model
    if jsStartsWith m "gpt-" || jsStartsWith m "o1" || jsIncludes m "openai" then .openai
    else if jsStartsWith m "claude-" then .anthropic
    else if jsStartsWith m "gemini-" then .google
    else if jsStartsWith m "grok-" then .xai
    else if jsIncludes m "/" then .openrouter
    else .openai

/-- The `MODEL_COSTS` table of the `/v1/chat/completions` path, in source
order; rates are dollars per 1000 tokens. -/
def MODEL_COSTS : List (String × ℚ × ℚ) :=
  [ ("gpt-4", 0.03, 0.06)
  , ("gpt-4-32k", 0.06, 0.12)
  , ("gpt-4-turbo", 0.01, 0.03)
  , ("gpt-4o", 0.005, 0.015)
  , ("gpt-4o-mini", 0.00015, 0.0006)
  , ("gpt-3.5-turbo", 0.0005, 0.0015)
  , ("o1-preview", 0.015, 0.06)
  , ("o1-mini", 0.003, 0.012)
  , ("o1", 0.015, 0.06)
  , ("claude-3-5-sonnet-20240620", 0.003, 0.015)
  , ("claude-3-5-sonnet-20241022", 0.003, 0.015)
  , ("claude-3-5-haiku-20241022", 0.001, 0.005)
  , ("claude-3-opus-20240229", 0.015, 0.075)
  , ("claude-3-sonnet-20240229", 0.003, 0.015)
  , ("claude-3-haiku-20240307", 0.00025, 0.00125)
  , ("gemini-pro", 0.00025, 0.0005)
  , ("gemini-1.5-pro", 0.00125, 0.005)
  , ("gemini-1.5-flash", 0.000075, 0.0003)
  , ("grok-beta", 0.005, 0.015)
  , ("grok-2", 0.002, 0.01) ]

/-- Embeds `calculateCost`: exact key lookup, then a containment fallback in
either direction, else cost 0. -/
def calculateCost (model : String) (inputTokens outputTokens : Nat) : ℚ :=
  match MODEL_COSTS.find? (fun e => e.1 = model) with
  | some e => (inputTokens : ℚ) / 1000 * e.2.1 + (outputTokens : ℚ) / 1000 * e.2.2
  | none =>
    match MODEL_COSTS.find? (fun e => jsIncludes model e.1 || jsIncludes e.1 model) with
    | some e => (inputTokens : ℚ) / 1000 * e.2.1 + (outputTokens : ℚ) / 1000 * e.2.2
    | none => 0

/-- The `ANTHROPIC_COSTS` table of the `/v1/messages` path, in source order;
rates are dollars per million tokens. -/
def ANTHROPIC_COSTS : List (String × ℚ × ℚ) :=
  [ ("claude-opus-4", 15, 75)
  , ("claude-opus-4-20250514", 15, 75)
  , ("claude-sonnet-4", 3, 15)
  , ("claude-sonnet-4-20250514", 3, 15)
  , ("claude-3-7-sonnet", 3, 15)
  , ("claude-3-7-sonnet-20250219", 3, 15)
  , ("claude-3-5-sonnet", 3, 15)
  , ("claude-3-5-sonnet-20240620", 3, 15)
  , ("claude-3-5-sonnet-20241022", 3, 15)
  , ("claude-3-5-haiku", 0.8, 4)
  , ("claude-3-5-haiku-20241022", 0.8, 4)
  , ("claude-3-opus", 15, 75)
  , ("claude-3-opus-20240229", 15, 75)
  , ("claude-3-sonnet", 3, 15)
  , ("claude-3-sonnet-20240229", 3, 15)
  , ("claude-3-haiku", 0.25, 1.25)
  , ("claude-3-haiku-20240307", 0.25, 1.25) ]

/-- Embeds the source's date-suffix strip (a `replace` of the anchored regex
hyphen-then-eight-digits with the empty string): drop a trailing hyphen
followed by exactly eight digits, when present. -/
def stripDateSuffix (model : String) : String :=
  let cs := model.data
  let n := cs.length
  match cs.drop (n - 9) with
  | '-' :: ds =>
      if ds.length = 8 && ds.all (fun c => c.isDigit) then
        String.mk (cs.take (n - 9))
      else model
  | _ => model

/-- Token usage as reported by the Anthropic wire format; absent fields are
already defaulted to 0 (the source's `|| 0`). -/
structure Usage where
  input_tokens : Nat
  output_tokens : Nat
  cache_read_input_tokens : Nat
  cache_creation_input_tokens : Nat
deriving DecidableEq

/-- The matched-rate selection inside `calculateAnthropicCost`: exact key
first, then the containment fallback (which strips a trailing date from the
model before testing whether a key contains it), else the source's default
sonnet pricing `{input: 3, output: 15}`. -/
def anthropicRates (model : String) : ℚ × ℚ :=
  match ANTHROPIC_COSTS.find? (fun e => e.1 = model) with
  | some e => e.2
  | none =>
    match ANTHROPIC_COSTS.find?
        (fun e => jsIncludes model e.1 || jsIncludes e.1 (stripDateSuffix model)) with
    | some e => e.2
    | none => (3, 15)

/-- Embeds `calculateAnthropicCost`: ordinary input/output cost per million
tokens plus cache reads at `0.1 ×` and cache writes at `1.25 ×` the input
rate; `usage = none` is the JS `if (!usage) return 0` guard. -/
def calculateAnthropicCost (model : String) (usage : Option Usage) : ℚ :=
  match usage with
  | none => 0
  | some u =>
    let costs := anthropicRates model
    (u.input_tokens : ℚ) / 1000000 * costs.1
      + (u.output_tokens : ℚ) / 1000000 * costs.2
      + (u.cache_read_input_tokens : ℚ) / 1000000 * costs.1 * 0.1
      + (u.cache_creation_input_tokens : ℚ) / 1000000 * costs.1 * 1.25

/-- No entry of `ANTHROPIC_COSTS` matches the model exactly or by the
containment fallback (the condition under which the source applies its
default rate). -/
def noAnthropicMatch (model : String) : Bool :=
  (ANTHROPIC_COSTS.find? (fun e => e.1 = model)).isNone
    && (ANTHROPIC_COSTS.find?
        (fun e => jsIncludes model e.1 || jsIncludes e.1 (stripDateSuffix model))).isNone

/-- No entry of `MODEL_COSTS` matches the model exactly or by containment in
either direction (the condition under which `calculateCost` returns 0). -/
def noChatMatch (model : String) : Bool :=
  (MODEL_COSTS.find? (fun e => e.1 = model)).isNone
    && (MODEL_COSTS.find? (fun e => jsIncludes model e.1 || jsIncludes e.1 model)).isNone

/-! ### The `tasks` table (spans) -/

/-- A row of the `tasks` table; nullable columns are `Option`, `REAL` money
is `ℚ`, integer counters are `Int`. -/
structure Task where
  id : String
  api_key_id : Option String
  account_id : Option String
  agent_name : String
  description : String
  status : String
  started_at : Option String
  completed_at : Option String
  duration_ms : Int
  cost : Option ℚ
  error : Option String
  provider : String
  metadata : String
  created_at : String
  model : Option String
  prompt : Option String
  completion : Option String
  tokens_in : Option Int
  tokens_out : Option Int
  trace_id : Option String
  parent_id : Option String
  span_name : Option String
  prompt_version : Option String
  prompt_template_id : Option String
  original_request : Option String
deriving DecidableEq

/-- SQL equality `col = ?` between a nullable column and a bound parameter:
a `NULL` on either side makes the comparison non-true. -/
def sqlEq (col param : Option String) : Bool :=
  match col, param with
  | some c, some p => c = p
  | _, _ => false

/-- Request body of `POST /api/tasks/:id/complete`. -/
structure CompleteBody where
  status : Option String
  durationMs : Option Int
  cost : Option ℚ
  error : Option String
  model : Option String
  prompt : Option String
  completion : Option String
  tokens_in : Option Int
  tokens_out : Option Int
  metadata : String
deriving DecidableEq

/-- Outcome reported by the complete endpoint. -/
inductive CompleteOutcome where
  | badRequest
  | notFound
  | ok
deriving DecidableEq

/-- The `WHERE` clause of the terminal `UPDATE`: matching id, matching owner
(legacy key or account), and current status `running`. -/
def completeMatches (apiKeyId accountId : Option String) (tid : String) (t : Task) : Bool :=
  t.id = tid && (sqlEq t.api_key_id apiKeyId || sqlEq t.account_id accountId)
    && t.status = "running"

/-- The `SET` part of the terminal `UPDATE` on one matching row, including
the JS `|| 0` / `|| null` defaulting of absent body fields. -/
def applyComplete (st : String) (dur : Int) (b : CompleteBody) (now : String) (t : Task) : Task :=
  { t with
    status := st
    duration_ms := dur
    cost := some (b.cost.getD 0)
    error := jsOrNull b.error
    model := jsOrNull b.model
    prompt := jsOrNull b.prompt
    completion := jsOrNull b.completion
    tokens_in := some (b.tokens_in.getD 0)
    tokens_out := some (b.tokens_out.getD 0)
    metadata := b.metadata
    completed_at := some now }

/-- Embeds the `POST /api/tasks/:id/complete` handler: field validation,
status-enum validation, then a conditional `UPDATE` restricted to rows
currently `running`; zero changed rows is reported as not found. -/
def completeTask (apiKeyId accountId : Option String) (tid : String)
    (b : CompleteBody) (now : String) (tasks : List Task) :
    CompleteOutcome × List Task :=
  match b.status, b.durationMs with
  | some st, some dur =>
    if st = "" then (.badRequest, tasks)
    else if ¬ (st = "success" ∨ st = "failed" ∨ st = "slow") then (.badRequest, tasks)
    else
      let changed := (tasks.filter (completeMatches apiKeyId accountId tid)).length
      let tasks' := tasks.map (fun t =>
        if completeMatches apiKeyId accountId tid t then applyComplete st dur b now t else t)
      if changed = 0 then (.notFound, tasks') else (.ok, tasks')
  | _, _ => (.badRequest, tasks)

/-! ### Retry (`POST /api/tasks/:id/retry`) -/

/-- The row inserted by the retry handler for an existing original task.
`retryId`, `retryTraceId` and `now` stand for the two `crypto.randomUUID()`
calls and the insertion timestamp; the prompt is `modified_prompt ||
originalTask.prompt` with JS truthiness. -/
def retryInsert (apiKeyId accountId : Option String) (orig : Task)
    (modified_prompt : Option String) (retryId retryTraceId now : String)
    (metadataStr : String) : Task :=
  { id := retryId
    api_key_id := apiKeyId
    account_id := accountId
    agent_name := orig.agent_name
    description := "[RETRY] " ++ orig.description
    status := "pending"
    started_at := none
    completed_at := none
    duration_ms := 0
    cost := some 0
    error := none
    provider := orig.provider
    metadata := metadataStr
    created_at := now
    model := orig.model
    prompt := if jsTruthy modified_prompt then modified_prompt else orig.prompt
    completion := none
    tokens_in := some 0
    tokens_out := some 0
    trace_id := some retryTraceId
    parent_id := some orig.id
    span_name := some "retry"
    prompt_version := none
    prompt_template_id := none
    original_request := none }

/-! ### Trace assembly (`GET /api/traces/:traceId`) -/

/-- Whether a span's `parent_id` is truthy and resolves to a span id present
in the fetched set (the guard of the child-linking pass). -/
def hasResolvedParent (spans : List Task) (s : Task) : Bool :=
  match s.parent_id with
  | some p => p ≠ "" && (spans.map Task.id).contains p
  | none => false

/-- The spans pushed into `roots`: those whose parent is absent, falsy, or
not an id in the set. -/
def traceRoots (spans : List Task) : List Task :=
  spans.filter (fun s => !hasResolvedParent spans s)

/-- The `children` list accumulated under the span with id `pid` by the
linking pass (ids are unique in the table, so this is the filter of spans
whose truthy `parent_id` equals `pid`). -/
def traceChildren (spans : List Task) (pid : String) : List Task :=
  spans.filter (fun s =>
    match s.parent_id with
    | some p => p ≠ "" && p = pid && (spans.map Task.id).contains p
    | none => false)

/-- The aggregate summary object of the trace endpoint. -/
structure TraceSummary where
  trace_id : String
  span_count : Nat
  total_duration_ms : Int
  total_cost : ℚ
  total_tokens_in : Int
  total_tokens_out : Int
  started_at : String
  ended_at : String
  has_failures : Bool
deriving DecidableEq

/-- Embeds the summary computation: `reduce` sums over the fetched spans,
with `|| 0` defaulting on nullable numeric columns, first/last `created_at`,
and a failed-status scan.  Returns `none` for an empty span set (the 404
branch). -/
def assembleSummary (traceId : String) (spans : List Task) : Option TraceSummary :=
  match spans with
  | [] => none
  | first :: rest =>
    some
      { trace_id := traceId
        span_count := spans.length
        total_duration_ms := spans.foldl (fun acc s => acc + s.duration_ms) 0
        total_cost := spans.foldl (fun acc s => acc + s.cost.getD 0) 0
        total_tokens_in := spans.foldl (fun acc s => acc + s.tokens_in.getD 0) 0
        total_tokens_out := spans.foldl (fun acc s => acc + s.tokens_out.getD 0) 0
        started_at := first.created_at
        ended_at := ((first :: rest).getLast (by simp)).created_at
        has_failures := spans.any (fun s => s.status = "failed") }

/-! ### Accounts (`getOrCreateAccount`) -/

/-- A row of the `accounts` table. -/
structure Account where
  id : String
  key_hash : String
  provider : String
  created_at : String
  last_seen_at : Option String
deriving DecidableEq

/-- The `UPDATE accounts SET last_seen_at = ? WHERE id = ?` statement. -/
def touchAccounts (aid ts : String) (accounts : List Account) : List Account :=
  accounts.map (fun r => if r.id = aid then { r with last_seen_at := some ts } else r)

/-- Embeds `getOrCreateAccount`: look up the first row with the key hash,
insert a fresh row when absent (`newId` stands for `crypto.randomUUID()`,
`now` for the timestamp), then stamp `last_seen_at` on the account's id.
Returns the account object the JS code returns (the pre-update row, or the
freshly built record) together with the new table state. -/
def getOrCreateAccount (keyHash provider newId now : String)
    (accounts : List Account) : Account × List Account :=
  match accounts.find? (fun a => a.key_hash = keyHash) with
  | some a => (a, touchAccounts a.id now accounts)
  | none =>
    let a : Account :=
      { id := newId, key_hash := keyHash, provider := provider
        created_at := now, last_seen_at := none }
    (a, touchAccounts newId now (accounts ++ [a]))

/-! ### Anthropic streaming relay on `POST /v1/chat/completions`

The byte stream is modelled after SSE line framing and JSON parsing: each
upstream line is either a `data:`-framed payload or some other line, and a
payload is the done marker, a parsed event, or malformed JSON (which the
source skips via its empty `catch`). -/

/-- A parsed Anthropic stream event; numeric usage fields carry the already
`|| 0`-defaulted values, and a delta's `text` may be absent. -/
inductive AnthEvent where
  | message_start (input_tokens : Nat)
  | content_block_delta (text : Option String)
  | message_delta (output_tokens : Nat)
  | message_stop
  | otherEvent
deriving DecidableEq

/-- The payload following `data: ` on an upstream line. -/
inductive StreamData where
  | doneMarker
  | event (e : AnthEvent)
  | malformed
deriving DecidableEq

/-- One upstream SSE line. -/
inductive StreamLine where
  | dataLine (d : StreamData)
  | otherLine
deriving DecidableEq

/-- A canonical chunk written to the caller, or the literal done marker. -/
inductive ChunkOut where
  | chunk (delta : Option String) (finish_reason : Option String)
  | doneOut
deriving DecidableEq

/-- Accumulator of the relay loop: token counters, the completion text
accumulated so far, and the chunks written to the caller in order. -/
structure RelayState where
  tokensIn : Nat
  tokensOut : Nat
  completion : String
  emitted : List ChunkOut
deriving DecidableEq

/-- One iteration of the `for (const line of lines)` loop of the anthropic
streaming branch: forward the done marker, skip malformed payloads and
non-`data:` lines, record usage from `message_start`/`message_delta`, and on
a truthy text delta append it and emit one canonical chunk; `message_stop`
emits the terminal chunk plus the done marker. -/
def relayStep (st : RelayState) (l : StreamLine) : RelayState :=
  match l with
  | .otherLine => st
  | .dataLine .malformed => st
  | .dataLine .doneMarker => { st with emitted := st.emitted ++ [.doneOut] }
  | .dataLine (.event e) =>
    match e with
    | .message_start n => { st with tokensIn := n }
    | .message_delta n => { st with tokensOut := n }
    | .content_block_delta none => st
    | .content_block_delta (some s) =>
      if s = "" then st
      else
        { st with
          completion := st.completion ++ s
          emitted := st.emitted ++ [.chunk (some s) none] }
    | .message_stop =>
      { st with emitted := st.emitted ++ [.chunk none (some "stop"), .doneOut] }
    | .otherEvent => st

/-- The whole relay loop over the upstream lines. -/
def relayAnthropicStream (lines : List StreamLine) : RelayState :=
  lines.foldl relayStep { tokensIn := 0, tokensOut := 0, completion := "", emitted := [] }

/-- The success finalization of the proxied task after the stream ends:
status success, cost from `calculateCost`, and the accumulated completion
and token counts. -/
def finalizeProxySuccess (t : Task) (model : String) (r : RelayState)
    (durationMs : Int) (now : String) : Task :=
  { t with
    status := "success"
    duration_ms := durationMs
    cost := some (calculateCost model r.tokensIn r.tokensOut)
    completion := some r.completion
    tokens_in := some (r.tokensIn : Int)
    tokens_out := some (r.tokensOut : Int)
    completed_at := some now }

/-! ### `POST /v1/messages` proxy: storage truncation and verbatim forwarding -/

/-- JS `s.substring(0, n)`: keep the first `n` characters. -/
def jsTruncate (s : String) (n : Nat) : String :=
  String.mk (s.data.take n)

/-- The prompt text stored when the messages-path task is inserted:
`role: content` lines joined by newlines, then `substring(0, 50000)`
(`content` stands for the string or JSON-stringified content). -/
def messagesStoredPrompt (messages : List (String × String)) : String :=
  jsTruncate (joinNl (messages.map (fun m => m.1 ++ ": " ++ m.2))) 50000

/-- Accumulator of the messages streaming loop: the full completion text and
the usage record (`message_start` seeds input/cache counts, deltas append to
the completion, `message_delta` sets the output count). -/
structure MsgTrack where
  fullCompletion : String
  usage : Usage
deriving DecidableEq

/-- Parsed events of the messages path, including the cache token counts of
`message_start`. -/
inductive MsgEvent where
  | message_start (input_tokens cache_read cache_creation : Nat)
  | content_block_delta (text : Option String)
  | message_delta (output_tokens : Nat)
  | otherEvent
deriving DecidableEq

/-- One upstream line of the messages path: raw text plus the parsed view
(`none` for non-`data:` lines or malformed JSON, both ignored by the
tracker; the done marker is also not tracked). -/
structure MessagesLine where
  raw : String
  event : Option MsgEvent
deriving DecidableEq

/-- One iteration of the messages-path tracking (the forwarding of `raw` is
separate and verbatim). -/
def messagesTrackStep (st : MsgTrack) (l : MessagesLine) : MsgTrack :=
  match l.event with
  | none => st
  | some (.message_start i cr cc) =>
    { st with usage := { st.usage with
        input_tokens := i
        cache_read_input_tokens := cr
        cache_creation_input_tokens := cc } }
  | some (.content_block_delta none) => st
  | some (.content_block_delta (some s)) =>
    if s = "" then st else { st with fullCompletion := st.fullCompletion ++ s }
  | some (.message_delta o) => { st with usage := { st.usage with output_tokens := o } }
  | some .otherEvent => st

/-- The messages streaming loop: every raw line is written to the caller
unchanged (first component) while the tracker folds over the parsed views
(second component). -/
def messagesRelay (lines : List MessagesLine) : List String × MsgTrack :=
  (lines.map MessagesLine.raw,
   lines.foldl messagesTrackStep
     { fullCompletion := ""
       usage := { input_tokens := 0, output_tokens := 0
                  cache_read_input_tokens := 0, cache_creation_input_tokens := 0 } })

/-- The streaming finalization of the messages path: completion truncated to
50000 characters, `tokens_in` the sum of input and cache counts. -/
def messagesFinalizeStream (t : Task) (model : String) (tr : MsgTrack)
    (durationMs : Int) (now : String) : Task :=
  { t with
    status := "success"
    duration_ms := durationMs
    cost := some (calculateAnthropicCost model (some tr.usage))
    completion := some (jsTruncate tr.fullCompletion 50000)
    tokens_in := some ((tr.usage.input_tokens + tr.usage.cache_read_input_tokens
      + tr.usage.cache_creation_input_tokens : Nat) : Int)
    tokens_out := some ((tr.usage.output_tokens : Nat) : Int)
    completed_at := some now }

/-- A content block of a non-streaming Anthropic response body. -/
structure AnthBlock where
  text : Option String
deriving DecidableEq

/-- A non-streaming Anthropic response body (the parts the handler reads);
`rest` stands for all the fields the handler forwards without looking at. -/
structure AnthResponse where
  content : List AnthBlock
  usage : Usage
  rest : String
deriving DecidableEq

/-- Extraction of `data.content?.[0]?.text || ''`. -/
def anthResponseText (data : AnthResponse) : String :=
  match data.content.head? with
  | some b => (jsOrNull b.text).getD ""
  | none => ""

/-- The non-streaming branch of the messages path after a 2xx upstream
response: the task is finalized with the truncated completion while the
body sent to the caller is the upstream response object unchanged
(`res.json(data)`). -/
def messagesNonStreaming (t : Task) (model : String) (data : AnthResponse)
    (durationMs : Int) (now : String) : Task × AnthResponse :=
  ({ t with
      status := "success"
      duration_ms := durationMs
      cost := some (calculateAnthropicCost model (some data.usage))
      completion := some (jsTruncate (anthResponseText data) 50000)
      tokens_in := some ((data.usage.input_tokens + data.usage.cache_read_input_tokens
        + data.usage.cache_creation_input_tokens : Nat) : Int)
      tokens_out := some ((data.usage.output_tokens : Nat) : Int)
      completed_at := some now },
   data)

/-! ### Replay prompt reconstruction (`POST /api/tasks/:id/replay`) -/

/-- A canonical chat message. -/
structure Msg where
  role : String
  content : String
deriving DecidableEq

/-- Push of the accumulated content under the current role (the
`messages.push({role, content.join newline trim})` of the source). -/
def flushMsg (role : String) (content : List String) (msgs : List Msg) : List Msg :=
  msgs ++ [{ role := role, content := jsTrim (joinNl content) }]

/-- The line loop of the prompt reconstruction.  A line starting with a role
tag flushes the pending content and starts a new group seeded with the
trimmed remainder of the line (the source's replace-first of the tag on a
line known to start with it, i.e. dropping the tag); any other line joins
the current group. -/
def replayParseGo : List String → String → List String → List Msg → List Msg
  | [], role, content, msgs =>
    if content.length > 0 then flushMsg role content msgs else msgs
  | line :: rest, role, content, msgs =>
    if jsStartsWith line "system:" then
      replayParseGo rest "system" [jsTrim (jsDrop line 7)]
        (if content.length > 0 then flushMsg role content msgs else msgs)
    else if jsStartsWith line "user:" then
      replayParseGo rest "user" [jsTrim (jsDrop line 5)]
        (if content.length > 0 then flushMsg role content msgs else msgs)
    else if jsStartsWith line "assistant:" then
      replayParseGo rest "assistant" [jsTrim (jsDrop line 10)]
        (if content.length > 0 then flushMsg role content msgs else msgs)
    else
      replayParseGo rest role (content ++ [line]) msgs

/-- Embeds the prompt-to-messages reconstruction used when no original
request snapshot is stored: split the stored prompt on newlines, run the
role-tag grouping loop starting in the user role, and fall back to one
user message holding the whole prompt when nothing was produced. -/
def buildReplayMessages (prompt : String) : List Msg :=
  let msgs := replayParseGo (jsSplitNewline prompt) "user" [] []
  if msgs.length = 0 then [{ role := "user", content := prompt }] else msgs

/-! ## Shared helper lemmas -/

/-- Folding addition of a projection equals the sum of the mapped list. -/
theorem foldl_add_map {α M : Type} [AddCommMonoid M] (f : α → M) :
    ∀ (l : List α) (a : M), l.foldl (fun acc s => acc + f s) a = a + (l.map f).sum := by
  intro l
  induction l with
  | nil => intro a; simp
  | cons x xs ih => intro a; simp [ih, add_assoc]

/-- Sample rows used by the concrete witnesses. -/
def mkSpan (id : String) (parent : Option String) (status : String)
    (dur : Int) (cost : ℚ) (tin tout : Int) (created : String) : Task :=
  { id := id
    api_key_id := some "k1"
    account_id := none
    agent_name := "agent"
    description := "desc"
    status := status
    started_at := none
    completed_at := none
    duration_ms := dur
    cost := some cost
    error := none
    provider := "custom"
    metadata := "{}"
    created_at := created
    model := none
    prompt := none
    completion := none
    tokens_in := some tin
    tokens_out := some tout
    trace_id := some "T"
    parent_id := parent
    span_name := none
    prompt_version := none
    prompt_template_id := none
    original_request := none }

/-! ## C1: close on a non-running span is a no-op reported as not found -/

/-- Claim C1: for every span whose current status is not `running`, the
complete (close) operation leaves every stored field of every span
unchanged (the table state is returned intact) and reports the
not-found/not-running outcome; ids are unique per the table's primary key. -/
theorem claim_C1_close_terminal_noop
    (apiKeyId accountId : Option String) (tid : String) (b : CompleteBody)
    (now : String) (tasks : List Task) (t : Task)
    (hnd : (tasks.map Task.id).Nodup)
    (hmem : t ∈ tasks) (hid : t.id = tid) (hnr : t.status ≠ "running")
    (st : String) (dur : Int)
    (hst : b.status = some st) (hdur : b.durationMs = some dur)
    (hval : st = "success" ∨ st = "failed" ∨ st = "slow") :
    completeTask apiKeyId accountId tid b now tasks = (.notFound, tasks) := by
  have hnomatch : ∀ t' ∈ tasks, completeMatches apiKeyId accountId tid t' = false := by
    intro t' ht'
    by_cases h : t'.id = tid
    · have : t' = t := by
        exact List.inj_on_of_nodup_map hnd ht' hmem (by rw [h, hid])
      subst this
      simp [completeMatches, hnr]
    · simp [completeMatches, h]
  have hfilter : tasks.filter (completeMatches apiKeyId accountId tid) = [] := by
    rw [List.filter_eq_nil_iff]
    intro a ha
    simp [hnomatch a ha]
  have hmap : (tasks.map (fun t' =>
      if completeMatches apiKeyId accountId tid t' then applyComplete st dur b now t' else t'))
      = tasks := by
    rw [List.map_congr_left (g := id), List.map_id]
    intro a ha
    simp [hnomatch a ha]
  have hne : st ≠ "" := by rcases hval with rfl | rfl | rfl <;> simp
  simp only [completeTask, hst, hdur]
  rw [if_neg hne, if_neg (by simp [hval] : ¬¬(st = "success" ∨ st = "failed" ∨ st = "slow"))]
  simp [hfilter, hmap]

/-- Witness for C1 at a concrete one-row table whose span is already
terminal. -/
theorem claim_C1_witness :
    completeTask (some "k1") none "t1"
      { status := some "failed", durationMs := some 3, cost := none, error := none
        model := none, prompt := none, completion := none
        tokens_in := none, tokens_out := none, metadata := "\x7b\x7d" }
      "2024-06-01" [mkSpan "t1" none "success" 5 0 1 2 "2024-05-31"]
      = (.notFound, [mkSpan "t1" none "success" 5 0 1 2 "2024-05-31"]) := by
  exact claim_C1_close_terminal_noop (some "k1") none "t1" _ "2024-06-01" _
    (mkSpan "t1" none "success" 5 0 1 2 "2024-05-31")
    (by decide) (by decide) rfl (by decide) "failed" 3 rfl rfl (by simp)

/-! ## C2: Anthropic streaming relay scenario -/

/-- The upstream SSE stream of the C2 scenario: a `message_start` with
`input_tokens = 10`, three text deltas, a `message_delta` with
`output_tokens = 3`, and a `message_stop`, interleaved with the `event:`
framing lines the relay ignores. -/
def c2UpstreamLines : List StreamLine :=
  [ .otherLine
  , .dataLine (.event (.message_start 10))
  , .otherLine
  , .dataLine (.event (.content_block_delta (some "Hello")))
  , .otherLine
  , .dataLine (.event (.content_block_delta (some " world")))
  , .otherLine
  , .dataLine (.event (.content_block_delta (some "!")))
  , .otherLine
  , .dataLine (.event (.message_delta 3))
  , .otherLine
  , .dataLine (.event .message_stop) ]

/-- Claim C2: on the scenario stream the relay forwards exactly the three
delta chunks in order followed by the terminal chunk (empty delta, finish
reason stop) and the done marker, accumulates `"Hello world!"` with token
usage 10/3, and the span is finalized as a success carrying exactly that
completion and those token counts. -/
theorem claim_C2_stream_relay_scenario :
    relayAnthropicStream c2UpstreamLines =
      { tokensIn := 10, tokensOut := 3, completion := "Hello world!"
        emitted := [ .chunk (some "Hello") none, .chunk (some " world") none
                   , .chunk (some "!") none, .chunk none (some "stop"), .doneOut ] }
    ∧ ∀ (t : Task) (model : String) (d : Int) (now : String),
        (finalizeProxySuccess t model (relayAnthropicStream c2UpstreamLines) d now).completion
            = some "Hello world!"
        ∧ (finalizeProxySuccess t model (relayAnthropicStream c2UpstreamLines) d now).tokens_in
            = some 10
        ∧ (finalizeProxySuccess t model (relayAnthropicStream c2UpstreamLines) d now).tokens_out
            = some 3
        ∧ (finalizeProxySuccess t model (relayAnthropicStream c2UpstreamLines) d now).status
            = "success" :=
  ⟨by decide, fun t model d now => ⟨rfl, rfl, rfl, rfl⟩⟩

/-! ## C3: provider detection from the model name -/

/-- Prefixes of a common list are linearly ordered: if `as` is a prefix of
`l`, a list `bs` no longer than `as` that is not a prefix of `as` is not a
prefix of `l` either. -/
theorem isPrefixOf_false_of_not_within (bs as l : List Char)
    (h : as.isPrefixOf l = true) (hlen : bs.length ≤ as.length)
    (hnot : bs.isPrefixOf as = false) : bs.isPrefixOf l = false := by
  by_contra hb
  have hb' : bs.isPrefixOf l = true := by
    revert hb; cases bs.isPrefixOf l <;> simp
  have h1 : as <+: l := by simpa using h
  have h2 : bs <+: l := by simpa using hb'
  have h3 : bs <+: as := List.prefix_of_prefix_length_le h2 h1 hlen
  rw [← List.isPrefixOf_iff_prefix, hnot] at h3
  exact Bool.false_ne_true h3

/-- Dual of `isPrefixOf_false_of_not_within` for a candidate at least as
long as the known prefix: if `as` is a prefix of `l` and `as` is not a
prefix of `bs`, then `bs` (no shorter than `as`) is not a prefix of `l`. -/
theorem isPrefixOf_false_of_not_extends (bs as l : List Char)
    (h : as.isPrefixOf l = true) (hlen : as.length ≤ bs.length)
    (hnot : as.isPrefixOf bs = false) : bs.isPrefixOf l = false := by
  by_contra hb
  have hb' : bs.isPrefixOf l = true := by
    revert hb; cases bs.isPrefixOf l <;> simp
  have h1 : as <+: l := by simpa using h
  have h2 : bs <+: l := by simpa using hb'
  have h3 : as <+: bs := List.prefix_of_prefix_length_le h1 h2 hlen
  rw [← List.isPrefixOf_iff_prefix, hnot] at h3
  exact Bool.false_ne_true h3

/-- Counterexample to C3 as stated: `"claude-openai"` starts with
`"claude-"` but is routed to openai (the `openai`-containment test runs
first), and `"claude-3/x"` contains the separator `/` but is routed to
anthropic (the prefix families run before the separator test). -/
theorem claim_C3_counterexample :
    detectProviderFromModel "claude-openai" = Provider.openai
    ∧ Provider.openai ≠ Provider.anthropic
    ∧ detectProviderFromModel "claude-3/x" = Provider.anthropic
    ∧ Provider.anthropic ≠ Provider.openrouter := by
  decide

/-- Amended C3: `detectProviderFromModel` always returns one of the five
providers; after lowercasing, a `gpt-`/`o1` prefix or an `openai` substring
yields openai; a `claude-`, `gemini-`, or `grok-` prefix yields anthropic,
google, or xai respectively provided the string does not contain `openai`;
the `/` separator routes to openrouter only when no prefix family matched;
and everything else defaults to openai. -/
theorem claim_C3_amended_detect_provider (model : String) :
    (detectProviderFromModel model = .openai ∨ detectProviderFromModel model = .anthropic
      ∨ detectProviderFromModel model = .google ∨ detectProviderFromModel model = .xai
      ∨ detectProviderFromModel model = .openrouter)
    ∧ (jsStartsWith (jsToLower model) "gpt-" = true ∨ jsStartsWith (jsToLower model) "o1" = true
        ∨ jsIncludes (jsToLower model) "openai" = true →
        detectProviderFromModel model = .openai)
    ∧ (jsIncludes (jsToLower model) "openai" = false →
        jsStartsWith (jsToLower model) "claude-" = true →
        detectProviderFromModel model = .anthropic)
    ∧ (jsIncludes (jsToLower model) "openai" = false →
        jsStartsWith (jsToLower model) "gemini-" = true →
        detectProviderFromModel model = .google)
    ∧ (jsIncludes (jsToLower model) "openai" = false →
        jsStartsWith (jsToLower model) "grok-" = true →
        detectProviderFromModel model = .xai)
    ∧ (jsStartsWith (jsToLower model) "gpt-" = false →
        jsStartsWith (jsToLower model) "o1" = false →
        jsIncludes (jsToLower model) "openai" = false →
        jsStartsWith (jsToLower model) "claude-" = false →
        jsStartsWith (jsToLower model) "gemini-" = false →
        jsStartsWith (jsToLower model) "grok-" = false →
        jsIncludes (jsToLower model) "/" = true →
        detectProviderFromModel model = .openrouter)
    ∧ (jsStartsWith (jsToLower model) "gpt-" = false →
        jsStartsWith (jsToLower model) "o1" = false →
        jsIncludes (jsToLower model) "openai" = false →
        jsStartsWith (jsToLower model) "claude-" = false →
        jsStartsWith (jsToLower model) "gemini-" = false →
        jsStartsWith (jsToLower model) "grok-" = false →
        jsIncludes (jsToLower model) "/" = false →
        detectProviderFromModel model = .openai) := by
  refine ⟨?_, ?_, ?_, ?_, ?_, ?_, ?_⟩
  · unfold detectProviderFromModel
    split
    · left; rfl
    · dsimp only
      split
      · left; rfl
      · split
        · right; left; rfl
        · split
          · right; right; left; rfl
          · split
            · right; right; right; left; rfl
            · split
              · right; right; right; right; rfl
              · left; rfl
  · intro hg
    have hne : model ≠ "" := by
      intro he; subst he
      rcases hg with h | h | h <;> exact absurd h (by decide)
    unfold detectProviderFromModel
    rw [if_neg hne]
    dsimp only
    rcases hg with h | h | h <;> simp [h]
  · intro hai hc
    have hne : model ≠ "" := by
      intro he; subst he; exact absurd hc (by decide)
    have hgpt : jsStartsWith (jsToLower model) "gpt-" = false :=
      isPrefixOf_false_of_not_within _ _ _ hc (by decide) (by decide)
    have ho1 : jsStartsWith (jsToLower model) "o1" = false :=
      isPrefixOf_false_of_not_within _ _ _ hc (by decide) (by decide)
    unfold detectProviderFromModel
    rw [if_neg hne]
    dsimp only
    simp [hgpt, ho1, hai, hc]
  · intro hai hc
    have hne : model ≠ "" := by
      intro he; subst he; exact absurd hc (by decide)
    have hgpt : jsStartsWith (jsToLower model) "gpt-" = false :=
      isPrefixOf_false_of_not_within _ _ _ hc (by decide) (by decide)
    have ho1 : jsStartsWith (jsToLower model) "o1" = false :=
      isPrefixOf_false_of_not_within _ _ _ hc (by decide) (by decide)
    have hcl : jsStartsWith (jsToLower model) "claude-" = false :=
      isPrefixOf_false_of_not_within _ _ _ hc (by decide) (by decide)
    unfold detectProviderFromModel
    rw [if_neg hne]
    dsimp only
    simp [hgpt, ho1, hai, hc, hcl]
  · intro hai hc
    have hne : model ≠ "" := by
      intro he; subst he; exact absurd hc (by decide)
    have hgpt : jsStartsWith (jsToLower model) "gpt-" = false :=
      isPrefixOf_false_of_not_within _ _ _ hc (by decide) (by decide)
    have ho1 : jsStartsWith (jsToLower model) "o1" = false :=
      isPrefixOf_false_of_not_within _ _ _ hc (by decide) (by decide)
    have hcl : jsStartsWith (jsToLower model) "claude-" = false :=
      isPrefixOf_false_of_not_extends _ _ _ hc (by decide) (by decide)
    have hge : jsStartsWith (jsToLower model) "gemini-" = false :=
      isPrefixOf_false_of_not_extends _ _ _ hc (by decide) (by decide)
    unfold detectProviderFromModel
    rw [if_neg hne]
    dsimp only
    simp [hgpt, ho1, hai, hc, hcl, hge]
  · intro h1 h2 h3 h4 h5 h6 h7
    by_cases hne : model = ""
    · subst hne; exact absurd h7 (by decide)
    · unfold detectProviderFromModel
      rw [if_neg hne]
      dsimp only
      simp [h1, h2, h3, h4, h5, h6, h7]
  · intro h1 h2 h3 h4 h5 h6 h7
    by_cases hne : model = ""
    · subst hne; rfl
    · unfold detectProviderFromModel
      rw [if_neg hne]
      dsimp only
      simp [h1, h2, h3, h4, h5, h6, h7]

/-- Witness for the amended C3 at concrete model names from each family. -/
theorem claim_C3_witness :
    detectProviderFromModel "claude-3-5-sonnet" = Provider.anthropic
    ∧ detectProviderFromModel "meta-llama/llama-3" = Provider.openrouter :=
  ⟨(claim_C3_amended_detect_provider "claude-3-5-sonnet").2.2.1 (by decide) (by decide),
   (claim_C3_amended_detect_provider "meta-llama/llama-3").2.2.2.2.2.1
     (by decide) (by decide) (by decide) (by decide) (by decide) (by decide) (by decide)⟩

/-! ## C4/C5: cost computation -/

/-- Every rate in the chat-path cost table is nonnegative. -/
theorem MODEL_COSTS_nonneg : ∀ e ∈ MODEL_COSTS, 0 ≤ e.2.1 ∧ 0 ≤ e.2.2 := by
  intro e he
  fin_cases he <;> exact ⟨by norm_num, by norm_num⟩

/-- Every rate in the messages-path cost table is nonnegative. -/
theorem ANTHROPIC_COSTS_nonneg : ∀ e ∈ ANTHROPIC_COSTS, 0 ≤ e.2.1 ∧ 0 ≤ e.2.2 := by
  intro e he
  fin_cases he <;> exact ⟨by norm_num, by norm_num⟩

/-- The rates selected for any model on the messages path are nonnegative
(table rates or the default pair). -/
theorem anthropicRates_nonneg (model : String) :
    0 ≤ (anthropicRates model).1 ∧ 0 ≤ (anthropicRates model).2 := by
  unfold anthropicRates
  cases h1 : ANTHROPIC_COSTS.find? (fun e => e.1 = model) with
  | some e => exact ANTHROPIC_COSTS_nonneg e (List.mem_of_find?_eq_some h1)
  | none =>
    cases h2 : ANTHROPIC_COSTS.find?
        (fun e => jsIncludes model e.1 || jsIncludes e.1 (stripDateSuffix model)) with
    | some e => exact ANTHROPIC_COSTS_nonneg e (List.mem_of_find?_eq_some h2)
    | none => exact ⟨by norm_num, by norm_num⟩

/-- Claim C4: the messages-path cost decomposes into ordinary input/output
cost plus cache reads at 10% and cache writes at 125% of the matched input
rate; an unmatched model gets the fixed default rates 3 (input) and 15
(output) per million tokens rather than zero, while the chat path's
`calculateCost` returns zero for an unmatched model. -/
theorem claim_C4_cost_rates (model : String) (u : Usage) (a b : Nat) :
    (noAnthropicMatch model = true →
      calculateAnthropicCost model (some u) =
        (u.input_tokens : ℚ) / 1000000 * 3
        + (u.output_tokens : ℚ) / 1000000 * 15
        + (u.cache_read_input_tokens : ℚ) / 1000000 * (3 * 0.1)
        + (u.cache_creation_input_tokens : ℚ) / 1000000 * (3 * 1.25))
    ∧ (calculateAnthropicCost model (some u) =
        (u.input_tokens : ℚ) / 1000000 * (anthropicRates model).1
        + (u.output_tokens : ℚ) / 1000000 * (anthropicRates model).2
        + (u.cache_read_input_tokens : ℚ) / 1000000 * ((anthropicRates model).1 * 0.1)
        + (u.cache_creation_input_tokens : ℚ) / 1000000 * ((anthropicRates model).1 * 1.25))
    ∧ (noChatMatch model = true → calculateCost model a b = 0) := by
  refine ⟨?_, ?_, ?_⟩
  · intro h
    simp only [noAnthropicMatch, Bool.and_eq_true, Option.isNone_iff_eq_none] at h
    obtain ⟨h1, h2⟩ := h
    simp only [calculateAnthropicCost, anthropicRates, h1, h2]
    ring
  · simp only [calculateAnthropicCost]
    ring
  · intro h
    simp only [noChatMatch, Bool.and_eq_true, Option.isNone_iff_eq_none] at h
    obtain ⟨h1, h2⟩ := h
    simp only [calculateCost, h1, h2]

/-- Witness for C4 at a model matching no cost-table key. -/
theorem claim_C4_witness :
    calculateAnthropicCost "mystery-model"
        (some { input_tokens := 10, output_tokens := 20
                cache_read_input_tokens := 30, cache_creation_input_tokens := 40 }) =
      (10 : ℚ) / 1000000 * 3 + (20 : ℚ) / 1000000 * 15
        + (30 : ℚ) / 1000000 * (3 * 0.1) + (40 : ℚ) / 1000000 * (3 * 1.25)
    ∧ calculateCost "mystery-model" 3 4 = 0 :=
  ⟨(claim_C4_cost_rates "mystery-model"
      { input_tokens := 10, output_tokens := 20
        cache_read_input_tokens := 30, cache_creation_input_tokens := 40 } 3 4).1
      (by decide),
   (claim_C4_cost_rates "mystery-model"
      { input_tokens := 10, output_tokens := 20
        cache_read_input_tokens := 30, cache_creation_input_tokens := 40 } 3 4).2.2
      (by decide)⟩

/-- One summand of the per-thousand/per-million cost formulas is monotone in
the token count when the rate is nonnegative. -/
theorem costTermMono (c d : ℚ) (hd : 0 < d) (hc : 0 ≤ c)
    (x y : Nat) (h : x ≤ y) : (x : ℚ) / d * c ≤ (y : ℚ) / d * c := by
  have hxy : (x : ℚ) ≤ y := by exact_mod_cast h
  exact mul_le_mul_of_nonneg_right ((div_le_div_iff_of_pos_right hd).mpr hxy) hc

/-- Claim C5: for a fixed model both cost functions are monotone in the
input and output token counts (cache counts held fixed on the messages
path). -/
theorem claim_C5_cost_monotone (model : String) (a a' b b' : Nat)
    (ha : a ≤ a') (hb : b ≤ b') (cr cw : Nat) :
    calculateCost model a b ≤ calculateCost model a' b'
    ∧ calculateAnthropicCost model (some
        { input_tokens := a, output_tokens := b
          cache_read_input_tokens := cr, cache_creation_input_tokens := cw })
      ≤ calculateAnthropicCost model (some
        { input_tokens := a', output_tokens := b'
          cache_read_input_tokens := cr, cache_creation_input_tokens := cw }) := by
  constructor
  · unfold calculateCost
    cases h1 : MODEL_COSTS.find? (fun e => e.1 = model) with
    | some e =>
      have hn := MODEL_COSTS_nonneg e (List.mem_of_find?_eq_some h1)
      exact add_le_add (costTermMono _ _ (by norm_num) hn.1 _ _ ha)
        (costTermMono _ _ (by norm_num) hn.2 _ _ hb)
    | none =>
      cases h2 : MODEL_COSTS.find? (fun e => jsIncludes model e.1 || jsIncludes e.1 model) with
      | some e =>
        have hn := MODEL_COSTS_nonneg e (List.mem_of_find?_eq_some h2)
        exact add_le_add (costTermMono _ _ (by norm_num) hn.1 _ _ ha)
          (costTermMono _ _ (by norm_num) hn.2 _ _ hb)
      | none => exact le_refl 0
  · have hn := anthropicRates_nonneg model
    simp only [calculateAnthropicCost]
    exact add_le_add (add_le_add (add_le_add
      (costTermMono _ _ (by norm_num) hn.1 _ _ ha)
      (costTermMono _ _ (by norm_num) hn.2 _ _ hb)) le_rfl) le_rfl

/-- Witness for C5 at concrete increasing token counts. -/
theorem claim_C5_witness :
    calculateCost "claude-3-5-sonnet" 10 20 ≤ calculateCost "claude-3-5-sonnet" 15 25
    ∧ calculateAnthropicCost "claude-3-5-sonnet" (some
        { input_tokens := 10, output_tokens := 20
          cache_read_input_tokens := 7, cache_creation_input_tokens := 9 })
      ≤ calculateAnthropicCost "claude-3-5-sonnet" (some
        { input_tokens := 15, output_tokens := 25
          cache_read_input_tokens := 7, cache_creation_input_tokens := 9 }) :=
  claim_C5_cost_monotone "claude-3-5-sonnet" 10 15 20 25 (by decide) (by decide) 7 9

/-! ## C6: trace assembly -/

/-- Claim C6: for every non-empty span set sharing a trace id (ids unique
per the primary key), assembly produces a summary whose `span_count` is the
number of spans and whose duration/cost/token totals are the sums over all
spans; every span whose `parent_id` resolves to another span's id is linked
as a child of that span, and every span without a resolvable parent is a
root. -/
theorem claim_C6_trace_assembly (traceId : String) (spans : List Task)
    (hne : spans ≠ []) (hnd : (spans.map Task.id).Nodup) :
    ∃ summ, assembleSummary traceId spans = some summ
      ∧ summ.span_count = spans.length
      ∧ summ.total_duration_ms = (spans.map Task.duration_ms).sum
      ∧ summ.total_cost = (spans.map (fun s => s.cost.getD 0)).sum
      ∧ summ.total_tokens_in = (spans.map (fun s => s.tokens_in.getD 0)).sum
      ∧ summ.total_tokens_out = (spans.map (fun s => s.tokens_out.getD 0)).sum
      ∧ (∀ s ∈ spans, ∀ p, s.parent_id = some p → p ≠ "" → p ∈ spans.map Task.id →
            s ∈ traceChildren spans p)
      ∧ (∀ s ∈ spans, hasResolvedParent spans s = false → s ∈ traceRoots spans) := by
  match spans, hne with
  | first :: rest, _ =>
    refine ⟨_, rfl, rfl, ?_, ?_, ?_, ?_, ?_, ?_⟩
    · simpa using foldl_add_map Task.duration_ms (first :: rest) 0
    · simpa using foldl_add_map (fun s => s.cost.getD 0) (first :: rest) 0
    · simpa using foldl_add_map (fun s => s.tokens_in.getD 0) (first :: rest) 0
    · simpa using foldl_add_map (fun s => s.tokens_out.getD 0) (first :: rest) 0
    · intro s hs p hp hpne hpmem
      rw [traceChildren, List.mem_filter]
      refine ⟨hs, ?_⟩
      rw [hp]
      simp [hpne]
      rcases List.mem_map.mp hpmem with ⟨a, ha, rfl⟩
      rcases List.mem_cons.mp ha with rfl | h
      · exact Or.inl rfl
      · exact Or.inr ⟨a, h, rfl⟩
    · intro s hs hnp
      rw [traceRoots, List.mem_filter]
      exact ⟨hs, by rw [hnp]; rfl⟩

/-- The three-span scenario of C6: root A with children B and C. -/
def c6A : Task := mkSpan "A" none "success" 5 1 10 20 "2024-01-01T00:00:00Z"

/-- Span B of the C6 scenario (child of A). -/
def c6B : Task := mkSpan "B" (some "A") "success" 7 2 30 40 "2024-01-01T00:00:01Z"

/-- Span C of the C6 scenario (child of A). -/
def c6C : Task := mkSpan "C" (some "A") "failed" 9 3 50 60 "2024-01-01T00:00:02Z"

/-- The C6 scenario trace, ordered by `created_at` as the query returns it. -/
def c6Spans : List Task := [c6A, c6B, c6C]

/-- Witness for C6: on the concrete A/B/C trace the theorem applies, and
the forest evaluates to one root A whose children list under id `"A"` is
exactly B then C, with `span_count = 3`. -/
theorem claim_C6_witness :
    (∃ summ, assembleSummary "T" c6Spans = some summ
      ∧ summ.span_count = c6Spans.length
      ∧ summ.total_duration_ms = (c6Spans.map Task.duration_ms).sum
      ∧ summ.total_cost = (c6Spans.map (fun s => s.cost.getD 0)).sum
      ∧ summ.total_tokens_in = (c6Spans.map (fun s => s.tokens_in.getD 0)).sum
      ∧ summ.total_tokens_out = (c6Spans.map (fun s => s.tokens_out.getD 0)).sum
      ∧ (∀ s ∈ c6Spans, ∀ p, s.parent_id = some p → p ≠ "" → p ∈ c6Spans.map Task.id →
            s ∈ traceChildren c6Spans p)
      ∧ (∀ s ∈ c6Spans, hasResolvedParent c6Spans s = false → s ∈ traceRoots c6Spans))
    ∧ traceChildren c6Spans "A" = [c6B, c6C]
    ∧ traceRoots c6Spans = [c6A]
    ∧ (assembleSummary "T" c6Spans).map TraceSummary.span_count = some 3 :=
  ⟨claim_C6_trace_assembly "T" c6Spans (by decide) (by decide),
   by decide, by decide, by decide⟩

/-! ## C7: replay prompt reconstruction -/

/-- A line that starts with none of the three recognized role tags. -/
def noRoleTag (line : String) : Bool :=
  !(jsStartsWith line "system:" || jsStartsWith line "user:"
    || jsStartsWith line "assistant:")

/-- Splitting never produces an empty line list. -/
theorem splitNlAux_ne_nil : ∀ (cs acc : List Char), splitNlAux cs acc ≠ [] := by
  intro cs
  induction cs with
  | nil => intro acc; simp [splitNlAux]
  | cons c rest ih =>
    intro acc
    rw [splitNlAux]
    split
    · simp
    · exact ih (c :: acc)

/-- On tag-free lines the loop accumulates everything under the current
role and flushes once at the end. -/
theorem replayParseGo_noTags :
    ∀ (lines : List String) (role : String) (content : List String) (msgs : List Msg),
      (∀ l ∈ lines, noRoleTag l = true) →
      replayParseGo lines role content msgs =
        if (content ++ lines).length > 0 then flushMsg role (content ++ lines) msgs
        else msgs := by
  intro lines
  induction lines with
  | nil => intro role content msgs _; simp [replayParseGo]
  | cons line rest ih =>
    intro role content msgs hall
    have h1 : noRoleTag line = true := hall line (by simp)
    simp only [noRoleTag, Bool.not_eq_true', Bool.or_eq_false_iff] at h1
    rw [replayParseGo, if_neg (by simp [h1.1.1]), if_neg (by simp [h1.1.2]),
      if_neg (by simp [h1.2]),
      ih role (content ++ [line]) msgs (fun l hl => hall l (by simp [hl]))]
    have hlen : 0 < (content ++ line :: rest).length := by simp
    have hlen' : 0 < ((content ++ [line]) ++ rest).length := by simp
    rw [if_pos hlen', if_pos hlen]
    simp [List.append_assoc]

/-- Claim C7: the stored prompt `"system: be terse\nuser: hi"` reconstructs
into exactly the two messages system/"be terse" and user/"hi" in order; and
a prompt with no role-tag lines reconstructs into a single user-role
message. -/
theorem claim_C7_replay_reconstruction :
    buildReplayMessages "system: be terse\nuser: hi" =
      [{ role := "system", content := "be terse" }, { role := "user", content := "hi" }]
    ∧ ∀ prompt : String, (∀ l ∈ jsSplitNewline prompt, noRoleTag l = true) →
        buildReplayMessages prompt =
          [{ role := "user", content := jsTrim (joinNl (jsSplitNewline prompt)) }] := by
  constructor
  · decide
  · intro prompt hall
    unfold buildReplayMessages
    rw [replayParseGo_noTags (jsSplitNewline prompt) "user" [] [] hall]
    have hne : jsSplitNewline prompt ≠ [] := splitNlAux_ne_nil _ _
    have hlen : 0 < ([] ++ jsSplitNewline prompt).length := by
      simpa [List.length_pos] using hne
    rw [if_pos hlen]
    simp [flushMsg]

/-- Witness for C7's tag-free fallback at a concrete two-line prompt. -/
theorem claim_C7_witness :
    buildReplayMessages "hello there\nfriend" =
      [{ role := "user", content := jsTrim (joinNl (jsSplitNewline "hello there\nfriend")) }]
    ∧ jsTrim (joinNl (jsSplitNewline "hello there\nfriend")) = "hello there\nfriend" :=
  ⟨claim_C7_replay_reconstruction.2 "hello there\nfriend" (by decide), by decide⟩

/-! ## C8: idempotence of account creation -/

/-- Stamping `last_seen_at` commutes with the hash lookup: the update never
changes a row's key hash, so `find?` on the touched table returns the
touched image of the original hit. -/
theorem find?_touchAccounts (aid ts keyHash : String) (l : List Account) :
    (touchAccounts aid ts l).find? (fun a => a.key_hash = keyHash)
      = (l.find? (fun a => a.key_hash = keyHash)).map
          (fun r => if r.id = aid then { r with last_seen_at := some ts } else r) := by
  induction l with
  | nil => simp [touchAccounts]
  | cons r rl ih =>
    have hkey : ((if r.id = aid then { r with last_seen_at := some ts } else r) :
        Account).key_hash = r.key_hash := by split <;> rfl
    by_cases hp : r.key_hash = keyHash
    · rw [touchAccounts, List.map_cons,
        List.find?_cons_of_pos _ (by simpa [hkey] using hp),
        List.find?_cons_of_pos _ (by simpa using hp)]
      rfl
    · rw [touchAccounts, List.map_cons,
        List.find?_cons_of_neg _ (by simpa [hkey] using hp),
        List.find?_cons_of_neg _ (by simpa using hp)]
      exact ih

/-- Touching preserves the number of rows. -/
theorem length_touchAccounts (aid ts : String) (l : List Account) :
    (touchAccounts aid ts l).length = l.length := by
  simp [touchAccounts]

/-- After touching, every row carrying the touched id has the new
timestamp. -/
theorem touchAccounts_stamps (aid ts : String) (l : List Account) :
    ∀ r ∈ touchAccounts aid ts l, r.id = aid → r.last_seen_at = some ts := by
  intro r hr hid
  rcases List.mem_map.mp hr with ⟨r0, _, rfl⟩
  by_cases h : r0.id = aid
  · simp [h]
  · rw [if_neg h] at hid ⊢
    exact absurd hid h

/-- Touching a row keeps its id. -/
theorem touchAccounts_id (aid ts : String) (r : Account) :
    ((if r.id = aid then { r with last_seen_at := some ts } else r) : Account).id = r.id := by
  split <;> rfl

/-- Claim C8: two `getOrCreateAccount` calls with the same key hash return
the same account id; the second call adds no row; and each call stamps the
returned account's `last_seen_at` with that call's timestamp (and the
account row exists after each call). -/
theorem claim_C8_account_idempotent (keyHash provider id1 t1 id2 t2 : String)
    (accounts : List Account) :
    ((getOrCreateAccount keyHash provider id2 t2
        (getOrCreateAccount keyHash provider id1 t1 accounts).2).1).id
      = ((getOrCreateAccount keyHash provider id1 t1 accounts).1).id
    ∧ ((getOrCreateAccount keyHash provider id2 t2
        (getOrCreateAccount keyHash provider id1 t1 accounts).2).2).length
      = ((getOrCreateAccount keyHash provider id1 t1 accounts).2).length
    ∧ (∃ r ∈ (getOrCreateAccount keyHash provider id1 t1 accounts).2,
        r.id = ((getOrCreateAccount keyHash provider id1 t1 accounts).1).id)
    ∧ (∀ r ∈ (getOrCreateAccount keyHash provider id1 t1 accounts).2,
        r.id = ((getOrCreateAccount keyHash provider id1 t1 accounts).1).id →
        r.last_seen_at = some t1)
    ∧ (∀ r ∈ (getOrCreateAccount keyHash provider id2 t2
          (getOrCreateAccount keyHash provider id1 t1 accounts).2).2,
        r.id = ((getOrCreateAccount keyHash provider id2 t2
          (getOrCreateAccount keyHash provider id1 t1 accounts).2).1).id →
        r.last_seen_at = some t2) := by
  cases hfind : accounts.find? (fun a => a.key_hash = keyHash) with
  | some a =>
    have hmem := List.mem_of_find?_eq_some hfind
    have hkey : a.key_hash = keyHash := by
      have := List.find?_some hfind
      simpa using this
    have hstate1 : (getOrCreateAccount keyHash provider id1 t1 accounts)
        = (a, touchAccounts a.id t1 accounts) := by
      simp [getOrCreateAccount, hfind]
    have hfind2 : (touchAccounts a.id t1 accounts).find? (fun x => x.key_hash = keyHash)
        = some (if a.id = a.id then { a with last_seen_at := some t1 } else a) := by
      rw [find?_touchAccounts, hfind]
      rfl
    rw [hstate1]
    have hstate2 : (getOrCreateAccount keyHash provider id2 t2 (touchAccounts a.id t1 accounts))
        = ((if a.id = a.id then { a with last_seen_at := some t1 } else a),
           touchAccounts ((if a.id = a.id then { a with last_seen_at := some t1 } else a) :
             Account).id t2 (touchAccounts a.id t1 accounts)) := by
      simp only [getOrCreateAccount, hfind2]
    rw [hstate2]
    refine ⟨by simp, by simp [length_touchAccounts], ?_, ?_, ?_⟩
    · refine ⟨{ a with last_seen_at := some t1 }, ?_, rfl⟩
      have : ({ a with last_seen_at := some t1 } : Account)
          = (fun r => if r.id = a.id then { r with last_seen_at := some t1 } else r) a := by
        simp
      rw [this]
      exact List.mem_map_of_mem _ hmem
    · intro r hr hid
      exact touchAccounts_stamps a.id t1 accounts r hr hid
    · intro r hr hid
      simp only at hid ⊢
      refine touchAccounts_stamps _ t2 _ r hr ?_
      simpa using hid
  | none =>
    have hstate1 : (getOrCreateAccount keyHash provider id1 t1 accounts)
        = ({ id := id1, key_hash := keyHash, provider := provider
             created_at := t1, last_seen_at := none },
           touchAccounts id1 t1 (accounts ++
             [{ id := id1, key_hash := keyHash, provider := provider
                created_at := t1, last_seen_at := none }])) := by
      simp [getOrCreateAccount, hfind]
    set newA : Account :=
      { id := id1, key_hash := keyHash, provider := provider
        created_at := t1, last_seen_at := none } with hnewA
    have hfind2 : (touchAccounts id1 t1 (accounts ++ [newA])).find?
        (fun x => x.key_hash = keyHash)
        = some (if newA.id = id1 then { newA with last_seen_at := some t1 } else newA) := by
      rw [find?_touchAccounts, List.find?_append, hfind, Option.none_or,
        List.find?_cons_of_pos _ (by simp [hnewA])]
      rfl
    have hsimp2 : (if newA.id = id1 then { newA with last_seen_at := some t1 } else newA)
        = { newA with last_seen_at := some t1 } := by simp [hnewA]
    rw [hstate1]
    have hstate2 : (getOrCreateAccount keyHash provider id2 t2
          (touchAccounts id1 t1 (accounts ++ [newA])))
        = ({ newA with last_seen_at := some t1 },
           touchAccounts ({ newA with last_seen_at := some t1 } : Account).id t2
             (touchAccounts id1 t1 (accounts ++ [newA]))) := by
      simp only [getOrCreateAccount, hfind2, hsimp2]
      simp [hnewA]
    rw [hstate2]
    refine ⟨by simp [hnewA], by simp [length_touchAccounts], ?_, ?_, ?_⟩
    · refine ⟨{ newA with last_seen_at := some t1 }, ?_, by simp [hnewA]⟩
      have : ({ newA with last_seen_at := some t1 } : Account)
          = (fun r => if r.id = id1 then { r with last_seen_at := some t1 } else r) newA := by
        simp [hnewA]
      rw [this]
      exact List.mem_map_of_mem _ (by simp)
    · intro r hr hid
      exact touchAccounts_stamps id1 t1 _ r hr (by simpa [hnewA] using hid)
    · intro r hr hid
      exact touchAccounts_stamps _ t2 _ r hr (by simpa using hid)

/-! ## C9: retry creation -/

/-- The original task of the C9 counterexample, carrying a stored prompt. -/
def c9Orig : Task :=
  { mkSpan "t0" none "failed" 5 0 1 2 "2024-01-01" with prompt := some "original prompt" }

/-- Counterexample to C9 as stated: a caller-supplied empty modified prompt
is falsy in JS, so the retry row stores the original prompt instead of the
supplied (empty) one. -/
theorem claim_C9_counterexample :
    (retryInsert (some "k1") none c9Orig (some "") "r1" "TR1" "2024-01-02" "\x7b\x7d").prompt
      = some "original prompt"
    ∧ (some "original prompt" : Option String) ≠ some "" := by
  decide

/-- Amended C9: the retry row has status pending, parent the original task,
span name `retry`, the freshly generated trace id (distinct from the
original's whenever the generated id is fresh), and the caller-supplied
modified prompt when it is given and non-empty, the original prompt
otherwise. -/
theorem claim_C9_amended_retry_fields (apiKeyId accountId : Option String) (orig : Task)
    (mp : Option String) (retryId retryTraceId now metadataStr : String) :
    (retryInsert apiKeyId accountId orig mp retryId retryTraceId now metadataStr).status
        = "pending"
    ∧ (retryInsert apiKeyId accountId orig mp retryId retryTraceId now metadataStr).parent_id
        = some orig.id
    ∧ (retryInsert apiKeyId accountId orig mp retryId retryTraceId now metadataStr).span_name
        = some "retry"
    ∧ (retryInsert apiKeyId accountId orig mp retryId retryTraceId now metadataStr).trace_id
        = some retryTraceId
    ∧ (∀ s : String, mp = some s → s ≠ "" →
        (retryInsert apiKeyId accountId orig mp retryId retryTraceId now metadataStr).prompt
          = some s)
    ∧ (mp = none ∨ mp = some "" →
        (retryInsert apiKeyId accountId orig mp retryId retryTraceId now metadataStr).prompt
          = orig.prompt)
    ∧ (some retryTraceId ≠ orig.trace_id →
        (retryInsert apiKeyId accountId orig mp retryId retryTraceId now metadataStr).trace_id
          ≠ orig.trace_id) := by
  refine ⟨rfl, rfl, rfl, rfl, ?_, ?_, ?_⟩
  · intro s hmp hs
    simp [retryInsert, hmp, jsTruthy, hs]
  · intro h
    rcases h with h | h <;> simp [retryInsert, h, jsTruthy]
  · intro h
    simpa [retryInsert] using h

/-- Witness for the amended C9 at a concrete non-empty modified prompt. -/
theorem claim_C9_witness :
    (retryInsert (some "k1") none c9Orig (some "better prompt")
        "r2" "TR2" "2024-01-03" "\x7b\x7d").prompt = some "better prompt"
    ∧ (retryInsert (some "k1") none c9Orig (some "better prompt")
        "r2" "TR2" "2024-01-03" "\x7b\x7d").trace_id ≠ c9Orig.trace_id :=
  ⟨(claim_C9_amended_retry_fields (some "k1") none c9Orig (some "better prompt")
      "r2" "TR2" "2024-01-03" "\x7b\x7d").2.2.2.2.1 "better prompt" rfl (by decide),
   (claim_C9_amended_retry_fields (some "k1") none c9Orig (some "better prompt")
      "r2" "TR2" "2024-01-03" "\x7b\x7d").2.2.2.2.2.2 (by decide)⟩

/-! ## C10: storage truncation on the messages path -/

/-- Truncation bounds the character length. -/
theorem jsTruncate_length_le (s : String) (n : Nat) : (jsTruncate s n).length ≤ n := by
  show (s.data.take n).length ≤ n
  exact List.length_take_le n s.data

/-- Claim C10: on the messages path the stored prompt and the stored
completion are truncated to at most 50000 characters in both the streaming
and the non-streaming finalization, while the payload forwarded to the
caller (the raw stream lines, respectively the upstream response object) is
not modified. -/
theorem claim_C10_messages_truncation :
    (∀ messages : List (String × String), (messagesStoredPrompt messages).length ≤ 50000)
    ∧ (∀ lines : List MessagesLine, (messagesRelay lines).1 = lines.map MessagesLine.raw)
    ∧ (∀ (lines : List MessagesLine) (t : Task) (model : String) (d : Int) (now : String),
        ∃ c, (messagesFinalizeStream t model (messagesRelay lines).2 d now).completion = some c
          ∧ c.length ≤ 50000)
    ∧ (∀ (data : AnthResponse) (t : Task) (model : String) (d : Int) (now : String),
        (messagesNonStreaming t model data d now).2 = data
        ∧ ∃ c, (messagesNonStreaming t model data d now).1.completion = some c
          ∧ c.length ≤ 50000) := by
  refine ⟨?_, ?_, ?_, ?_⟩
  · intro messages
    exact jsTruncate_length_le _ _
  · intro lines
    rfl
  · intro lines t model d now
    exact ⟨_, rfl, jsTruncate_length_le _ _⟩
  · intro data t model d now
    exact ⟨rfl, _, rfl, jsTruncate_length_le _ _⟩

end AgentLog
